import Mathlib

/-!
Verification development for the Franta-rust gateway/audio-node client.

The definitions below are a shallow embedding of the connection-lifecycle
core of the repository: the Lavalink client operations (`src/client/mod.rs`,
`LavalinkClient` and `Player`), the gateway reader's close-code and
opcode handling (`src/client/event_loop.rs`), and the orchestrator drain
loop of `Client::login` (`src/client/mod.rs`).

Strings model Rust `String` identifiers (guild/user/channel/session ids).
Outbound JSON payloads are modelled structurally (one constructor or
structure per `json!` construction site).  Channel sends are modelled as
emitted output lists; `tokio::spawn`ed idle-destroy timers are modelled as
a set of live timer handles with fresh integer ids, an explicit `fire`
action standing for the sleep elapsing, and `abort` as removal from the
live set.
-/

namespace Franta

/-- The `{op:4, d:{guild_id, channel_id, self_mute, self_deaf}}` gateway
voice-state-update command built by `LavalinkClient::send_ws`. -/
structure WsVoicePayload where
  guild_id : String
  channel_id : Option String
  self_mute : Bool
  self_deaf : Bool
deriving Repr, DecidableEq

/-- Rust `VoiceState` from `src/client/events.rs` (field order as in the source). -/
structure VoiceState where
  channel_id : Option String
  guild_id : String
  user_id : String
  session_id : String
deriving Repr, DecidableEq

/-- Rust `VoiceServer` from `src/client/events.rs`. -/
structure VoiceServer where
  token : String
  guild_id : String
  endpoint : String
deriving Repr, DecidableEq

/-- Rust `TrackInfo` from `src/client/mod.rs`. -/
structure TrackInfo where
  identifier : String
  author : String
  length : Nat
  position : Nat
  title : String
  uri : String
deriving Repr, DecidableEq

/-- Rust `Track` from `src/client/mod.rs`: the encoded payload plus info. -/
structure Track where
  track : String
  info : TrackInfo
deriving Repr, DecidableEq

/-- Payloads sent to the audio node over the Lavalink websocket, one
constructor per `json!` site in `src/client/mod.rs` / `event_loop.rs`. -/
inductive NodePayload where
  | play (guildId : String) (track : String)
  | destroy (guildId : String)
  | voiceUpdate (guildId : String) (sessionId : String) (event : VoiceServer)
  | pauseTrack (guildId : String) (pause : Bool)
  | stop (guildId : String)
  | configureResuming (key : String) (timeout : Nat)
deriving Repr, DecidableEq

/-- Whether a node payload is the `voiceUpdate` voice-connect instruction. -/
def NodePayload.isVoiceUpdate : NodePayload → Bool
  | .voiceUpdate _ _ _ => true
  | _ => false

/-- Rust `Player` from `src/client/mod.rs`.  The `tx` channel sender and the
shared `options` handle are not part of the state proper: sends through
`tx` are modelled as emitted `NodePayload` outputs. -/
structure Player where
  guild_id : String
  channel_id : String
  paused : Bool
  volume : Nat
  playing : Bool
  queue : List Track
deriving Repr, DecidableEq

/-- Constructor `Player::new`. -/
def Player.new (guild_id channel_id : String) : Player :=
  { guild_id := guild_id
    channel_id := channel_id
    paused := false
    volume := 100
    playing := false
    queue := [] }

/-- Replace the first element satisfying `pred` by `f` of it (the effect of
mutating through a `iter_mut().find(...)` borrow in the source). -/
def updateFirst (pred : α → Bool) (f : α → α) : List α → List α
  | [] => []
  | x :: xs => if pred x then f x :: xs else x :: updateFirst pred f xs

/-- The `match iter_mut().find(...) { Some(r) => *r = x, None => push(x) }`
upsert pattern used for voice states and voice servers in the source. -/
def upsertFirst (pred : α → Bool) (x : α) (l : List α) : List α :=
  if l.any pred then updateFirst pred (fun _ => x) l else l ++ [x]

/-- Rust `Result<(), String>`. -/
inductive CallResult where
  | ok
  | error (msg : String)
deriving Repr, DecidableEq

/-- Rust `LavalinkClient` from `src/client/mod.rs`.  `hasTx` models whether
`tx: Option<Arc<UnboundedSender<Event>>>` is `Some`; `hasSender` models
whether `socket.sender` is `Some`. -/
structure LavalinkClient where
  hasTx : Bool
  hasSender : Bool
  voice_servers : List VoiceServer
  voice_states : List VoiceState
  players : List Player
deriving Repr, DecidableEq

/-- Result of a `LavalinkClient` operation: the Rust return value, the
updated client, the gateway payloads enqueued (as `Event::SendWS`) through
`tx`, and the node payloads sent through the players' Lavalink sender. -/
structure OpResult where
  res : CallResult
  client : LavalinkClient
  ws_out : List WsVoicePayload
  node_out : List NodePayload
deriving Repr, DecidableEq

/-- Function `LavalinkClient::send_ws`: builds the op-4 payload and enqueues it as an
`Event::SendWS` when `tx` is present (`if let Some(tx) = &self.tx`);
it returns `Ok` in both cases. -/
def LavalinkClient.send_ws (c : LavalinkClient) (guild_id : String)
    (channel_id : Option String) : List WsVoicePayload :=
  if c.hasTx then [⟨guild_id, channel_id, false, false⟩] else []

/-- Function `LavalinkClient::get_player`: first player whose guild id matches. -/
def LavalinkClient.get_player (c : LavalinkClient) (guild_id : String) : Option Player :=
  c.players.find? (fun p => p.guild_id == guild_id)

/-- Function `LavalinkClient::join`. -/
def LavalinkClient.join (c : LavalinkClient) (guild_id channel_id : String) : OpResult :=
  if c.players.any (fun p => p.guild_id == guild_id) then
    { res := .error ("Already in a voice channel in " ++ guild_id)
      client := c, ws_out := [], node_out := [] }
  else
    let ws := c.send_ws guild_id (some channel_id)
    if c.hasSender then
      { res := .ok
        client := { c with players := c.players ++ [Player.new guild_id channel_id] }
        ws_out := ws, node_out := [] }
    else
      { res := .error "missing sender", client := c, ws_out := ws, node_out := [] }

/-- Function `LavalinkClient::destroy_player`.  Note the source calls
`self.send_ws(guild_id, None)?` before looking the player up, so the
gateway leave payload is emitted even when no player exists. -/
def LavalinkClient.destroy_player (c : LavalinkClient) (guild_id : String) : OpResult :=
  let ws := c.send_ws guild_id none
  match c.get_player guild_id with
  | none =>
    { res := .error "Player not found", client := c, ws_out := ws, node_out := [] }
  | some _ =>
    { res := .ok
      client := { c with players := c.players.filter (fun p => p.guild_id != guild_id) }
      ws_out := ws
      node_out := [.destroy guild_id] }

/-- Result of `LavalinkClient::attempt_connection`: either the
`voiceUpdate` payload sent by `Player::connect`, or the error string. -/
inductive Attempt where
  | ok (p : NodePayload)
  | error (msg : String)
deriving Repr, DecidableEq

/-- Function `LavalinkClient::attempt_connection`: requires a `VoiceServer`, a
bot-scoped `VoiceState` and a `Player` for the guild; emits the
`voiceUpdate` payload built by `Player::connect`. -/
def LavalinkClient.attempt_connection (c : LavalinkClient) (guild_id : String) : Attempt :=
  match c.voice_servers.find? (fun s => s.guild_id == guild_id) with
  | none => .error "No voice server found"
  | some server =>
    match c.voice_states.find? (fun s => s.guild_id == guild_id) with
    | none => .error "No voice state found"
    | some session =>
      match c.get_player guild_id with
      | none => .error "No player found"
      | some player => .ok (.voiceUpdate player.guild_id session.session_id server)

/-- The `Event::TrackEnd` arm of the drain loop.  `none` models the Rust
panic of `Vec::remove(0)` on an empty queue. -/
def LavalinkClient.on_track_end (c : LavalinkClient) (guild_id : String) :
    Option (LavalinkClient × List NodePayload) :=
  match c.get_player guild_id with
  | none => some (c, [])
  | some p =>
    match p.queue with
    | [] => none
    | _ :: rest =>
      match rest with
      | [] =>
        let ps := updateFirst (fun q => q.guild_id == guild_id)
          (fun _ => { p with queue := [], playing := false }) c.players
        some ({ c with players := ps }, [])
      | t :: _ =>
        let ps := updateFirst (fun q => q.guild_id == guild_id)
          (fun _ => { p with queue := rest }) c.players
        some ({ c with players := ps }, [.play guild_id t.track])

/-- Rust `ResumeProperties` from `src/client/event_loop.rs`. -/
structure ResumeProperties where
  resume_gateway_url : String
  session_id : String
  seq : Nat
  token : String
deriving Repr, DecidableEq

/-- The orchestrator `Event` enum from `src/client/events.rs`, restricted
to the connection-lifecycle core (the `InteractionCreate` arm dispatches
to the out-of-scope command layer; its calls into `LavalinkClient` are
modelled by the `joinCmd` action below). -/
inductive Event where
  | ready (id username discriminator : String)
  | resume
  | reconnect
  | voiceStateUpdate (vs : VoiceState)
  | voiceServerUpdate (server : VoiceServer)
  | resumeSeq (seq : Nat)
  | resumeProps (resume_gateway_url session_id : String)
  | sendWS (payload : WsVoicePayload)
  | lavalinkClosed
  | trackEnd (guildId : String)
  | destroyPlayer (guild_id : String)
deriving Repr, DecidableEq

/-- Close codes as seen by `on_close`: `CloseCode::Library(code)` for the
4000-range codes, any other `CloseCode` variant collapsed to `standard`. -/
inductive CloseCode where
  | library (code : Nat)
  | standard (code : Nat)
deriving Repr, DecidableEq

/-- A websocket close frame (code plus reason). -/
structure CloseFrame where
  code : CloseCode
  reason : String
deriving Repr, DecidableEq

/-- Rust `Result<Event, String>` as returned by `on_close`. -/
inductive CloseOutcome where
  | event (e : Event)
  | err (msg : String)
deriving Repr, DecidableEq

/-- Function `on_close` from `src/client/event_loop.rs`: classify the close frame
into Resume, Reconnect, or an error (the fatal codes surface the close
reason; a missing close frame is an error too). -/
def on_close (close : Option CloseFrame) : CloseOutcome :=
  match close with
  | none => .err "Closed with no close code"
  | some cf =>
    match cf.code with
    | .library code =>
      if code = 4000 then .event .resume
      else if code = 4001 then .event .resume
      else if code = 4002 then .event .resume
      else if code = 4003 then .event .reconnect
      else if code = 4005 then .event .reconnect
      else if code = 4007 then .event .reconnect
      else if code = 4008 then .event .reconnect
      else if code = 4009 then .event .resume
      else if code = 4004 then .err cf.reason
      else if code = 4010 then .err cf.reason
      else if code = 4011 then .err cf.reason
      else if code = 4013 then .err cf.reason
      else if code = 4014 then .err cf.reason
      else .event .resume
    | .standard _ => .event .resume

/-- The `Message::Close` branch of `DiscordEvLoop::handle_events`: on
`Ok(event)` the event is sent to the orchestrator; on `Err` the reason is
only printed and nothing is sent (in both cases the reader breaks with
`broke = true`, so the post-loop fallback Resume is skipped). -/
def readerCloseSignal (close : Option CloseFrame) : Option Event :=
  match on_close close with
  | .event e => some e
  | .err _ => none

/-- The fields of a parsed inbound gateway text payload that
`DiscordEvLoop::handle_events` inspects: the `s` sequence number, the
`op` code, `d` read as a boolean, the `t` dispatch name, the
`resume_gateway_url`/`session_id` pair of a READY payload, and the result
of `create_event` on the payload (`none` when `create_event` errors). -/
structure GatewayMsg where
  s : Option Nat
  op : Option Nat
  dBool : Option Bool
  t : Option String
  dReady : Option (String × String)
  dispatch : Option Event
deriving Repr, DecidableEq

/-- Events the reader emits for the `s` field of a payload. -/
def seqEvents (msg : GatewayMsg) : List Event :=
  match msg.s with
  | some n => [.resumeSeq n]
  | none => []

/-- Whether the reader loop continues to the next frame or breaks
(`broke = true`), together with the events sent to the orchestrator. -/
inductive ReaderOutcome where
  | cont (events : List Event)
  | brk (events : List Event)
deriving Repr, DecidableEq

/-- The `Message::Text` branch of `DiscordEvLoop::handle_events`: forward
the sequence number, handle opcodes 7 and 9 (both break the reader;
opcode 9 sends Resume only when `d` is the boolean `true`), then decode
named dispatch payloads, with the READY payload additionally yielding a
`ResumeProps` event (or being skipped entirely when its url or session id
is missing). -/
def readerTextStep (msg : GatewayMsg) : ReaderOutcome :=
  let seqs := seqEvents msg
  match msg.op with
  | some 7 => .brk (seqs ++ [.resume])
  | some 9 => .brk (seqs ++ (if msg.dBool == some true then [.resume] else []))
  | _ =>
    match msg.t with
    | none => .cont seqs
    | some name =>
      if name == "READY" then
        match msg.dReady with
        | none => .cont seqs
        | some pr =>
          .cont (seqs ++ [.resumeProps pr.1 pr.2] ++
            (match msg.dispatch with | some e => [e] | none => []))
      else
        .cont (seqs ++ (match msg.dispatch with | some e => [e] | none => []))

/-- A spawned idle-destroy timer task: its handle id, the guild whose
player it will destroy, and the sleep duration in seconds. -/
structure Timer where
  id : Nat
  guild_id : String
  delay : Nat
deriving Repr, DecidableEq

/-- The mutable state of the `Client::login` drain loop: the bot's user id,
the all-users voice-state records (`self.voice_states`), the Lavalink
manager, the resume properties, the `players_to_destroy` vector of
`(guild_id, JoinHandle)` pairs (handles as integer ids), plus the set of
spawned-and-not-yet-finished timer tasks and a fresh-id counter. -/
structure OrchState where
  user : String
  voice_states : List VoiceState
  manager : LavalinkClient
  resume_props : ResumeProperties
  players_to_destroy : List (String × Nat)
  live_timers : List Timer
  next_timer : Nat
deriving Repr, DecidableEq

/-- Whether the awaited reconnection attempts of the environment succeed. -/
structure Env where
  gatewayOk : Bool
  lavalinkOk : Bool
deriving Repr, DecidableEq

/-- Payloads sent (or enqueued) toward the gateway websocket. -/
inductive GatewayOut where
  | identify
  | resumePayload (props : ResumeProperties)
  | payload (p : WsVoicePayload)
deriving Repr, DecidableEq

/-- Outcome of processing one event in the drain loop: the new state with
the events enqueued back onto the orchestrator queue and the gateway/node
payloads sent, or a Rust panic, or the loop terminating with an error
(an `Err` return from `Client::login`). -/
inductive StepOutcome where
  | ok (s : OrchState) (emit : List Event) (gw : List GatewayOut) (node : List NodePayload)
  | panicked (msg : String)
  | terminated (msg : String)
deriving Repr, DecidableEq

/-- The bot-scoped half of the `Event::VoiceStateUpdate` arm
(`if voice_state.user_id == self.user`): on leave, drop the guild's
bot-scoped record and destroy its player (errors only printed); on
join/move, upsert the record and update the player's channel. -/
def botVoiceUpdate (user : String) (mgr : LavalinkClient) (vs : VoiceState) :
    LavalinkClient × List Event × List NodePayload :=
  if vs.user_id == user then
    match vs.channel_id with
    | none =>
      let sts := mgr.voice_states.filter (fun st => st.guild_id != vs.guild_id)
      let r := LavalinkClient.destroy_player { mgr with voice_states := sts } vs.guild_id
      (r.client, r.ws_out.map Event.sendWS, r.node_out)
    | some ch =>
      let sts := upsertFirst (fun st => st.guild_id == vs.guild_id) vs mgr.voice_states
      let ps := updateFirst (fun p => p.guild_id == vs.guild_id)
        (fun p => { p with channel_id := ch }) mgr.players
      ({ mgr with voice_states := sts, players := ps }, [], [])
  else (mgr, [], [])

/-- The timer-relevant fields of the orchestrator state. -/
structure IdleState where
  voice_states : List VoiceState
  players_to_destroy : List (String × Nat)
  live_timers : List Timer
  next_timer : Nat
deriving Repr, DecidableEq

/-- The all-users half of the `Event::VoiceStateUpdate` arm: the idle
heuristic plus the record update.  On a leave, if the bot has a record in
the guild, the leaving user's previous record exists, and exactly two
records still reference its previous channel, a 300-second destroy timer
is spawned and pushed onto `players_to_destroy`; then the leaver's record
is removed.  On a join, if the bot has a record in the guild and exactly
one existing record references the joined channel, the first matching
pending destroy is aborted and all pending entries for the guild are
removed; then the joiner's record is upserted. -/
def idleStep (user : String) (is : IdleState) (vs : VoiceState) : IdleState :=
  match vs.channel_id with
  | none =>
    let prev := is.voice_states.find?
      (fun st => st.guild_id == vs.guild_id && st.user_id == vs.user_id)
    let sched :=
      if (is.voice_states.find?
            (fun st => st.guild_id == vs.guild_id && st.user_id == user)).isSome then
        match prev with
        | some pv =>
          (is.voice_states.filter
            (fun st => st.guild_id == vs.guild_id && st.channel_id == pv.channel_id)).length == 2
        | none => false
      else false
    let pend := if sched then is.players_to_destroy ++ [(vs.guild_id, is.next_timer)]
                else is.players_to_destroy
    let live := if sched then is.live_timers ++ [⟨is.next_timer, vs.guild_id, 300⟩]
                else is.live_timers
    let next := if sched then is.next_timer + 1 else is.next_timer
    { voice_states := is.voice_states.filter
        (fun st => st.user_id != vs.user_id || st.guild_id != vs.guild_id)
      players_to_destroy := pend
      live_timers := live
      next_timer := next }
  | some _ =>
    let cancel :=
      (is.voice_states.find?
        (fun st => st.guild_id == vs.guild_id && st.user_id == user)).isSome &&
      ((is.voice_states.filter
        (fun st => st.guild_id == vs.guild_id && st.channel_id == vs.channel_id)).length == 1)
    let aborted :=
      if cancel then
        match is.players_to_destroy.find? (fun pr => pr.1 == vs.guild_id) with
        | some pr =>
          (is.players_to_destroy.filter (fun q => q.1 != vs.guild_id),
           is.live_timers.filter (fun tm => tm.id != pr.2))
        | none => (is.players_to_destroy, is.live_timers)
      else (is.players_to_destroy, is.live_timers)
    { voice_states := upsertFirst
        (fun st => st.guild_id == vs.guild_id && st.user_id == vs.user_id) vs is.voice_states
      players_to_destroy := aborted.1
      live_timers := aborted.2
      next_timer := is.next_timer }

/-- One iteration of the `Client::login` drain loop on a received event,
arm by arm as in `src/client/mod.rs`. -/
def procEvent (env : Env) (s : OrchState) (e : Event) : StepOutcome :=
  match e with
  | .resumeSeq n =>
    .ok { s with resume_props := { s.resume_props with seq := n } } [] [] []
  | .resumeProps url sid =>
    let rp := { s.resume_props with resume_gateway_url := url, session_id := sid }
    .ok { s with resume_props := rp } [] [] []
  | .resume =>
    if env.gatewayOk then .ok s [] [.resumePayload s.resume_props] []
    else .terminated "Error resuming connection to the gateway"
  | .reconnect =>
    if env.gatewayOk then .ok s [] [.identify] []
    else .terminated "Error reconnecting to the gateway"
  | .lavalinkClosed =>
    if env.lavalinkOk then
      .ok { s with manager := { s.manager with hasSender := true } } [] []
        [.configureResuming "franta-rust-resume-key" 60]
    else .terminated "Failed to connect to the lavalink"
  | .ready id _username _discriminator =>
    .ok { s with user := id } [] [] []
  | .sendWS p => .ok s [] [.payload p] []
  | .voiceStateUpdate vs =>
    let bp := botVoiceUpdate s.user s.manager vs
    let ir := idleStep s.user
      ⟨s.voice_states, s.players_to_destroy, s.live_timers, s.next_timer⟩ vs
    .ok { s with manager := bp.1, voice_states := ir.voice_states,
                 players_to_destroy := ir.players_to_destroy,
                 live_timers := ir.live_timers,
                 next_timer := ir.next_timer } bp.2.1 [] bp.2.2
  | .voiceServerUpdate server =>
    let srv := upsertFirst (fun sv => sv.guild_id == server.guild_id) server
      s.manager.voice_servers
    let m := { s.manager with voice_servers := srv }
    match m.attempt_connection server.guild_id with
    | .ok p => .ok { s with manager := m } [] [] [p]
    | .error _ => .ok { s with manager := m } [] [] []
  | .trackEnd g =>
    match s.manager.on_track_end g with
    | none => .panicked "removal index (is 0) should be < len (is 0)"
    | some pr => .ok { s with manager := pr.1 } [] [] pr.2
  | .destroyPlayer g =>
    let r := s.manager.destroy_player g
    -- the closure parameter in `retain(|(guild_id, _)| guild_id != guild_id)`
    -- shadows the event's guild id, so the predicate compares each entry's
    -- own guild id with itself
    let pend := s.players_to_destroy.filter (fun pr => pr.1 != pr.1)
    .ok { s with manager := r.client, players_to_destroy := pend }
      (r.ws_out.map Event.sendWS) [] r.node_out

/-- A 300-second idle timer elapsing: if the handle is still live (spawned,
not aborted, not yet finished) the task sends `Event::DestroyPlayer` for
its guild and finishes; an aborted or finished handle does nothing. -/
def fireStep (s : OrchState) (id : Nat) : OrchState × List Event :=
  match s.live_timers.find? (fun tm => tm.id == id) with
  | some tm =>
    ({ s with live_timers := s.live_timers.filter (fun t2 => t2.id != id) },
     [.destroyPlayer tm.guild_id])
  | none => (s, [])

/-- The actions that drive the orchestrator state: delivering an event to
the drain loop, an idle timer elapsing, and the command layer invoking
`LavalinkClient::join` from an `InteractionCreate` (whose errors the
command arm catches and only reports). -/
inductive Action where
  | deliver (e : Event)
  | fire (id : Nat)
  | joinCmd (guild_id channel_id : String)
deriving Repr, DecidableEq

/-- One small step of the orchestrator system. -/
def stepA (env : Env) (s : OrchState) (a : Action) : StepOutcome :=
  match a with
  | .deliver e => procEvent env s e
  | .fire id =>
    let pr := fireStep s id
    .ok pr.1 pr.2 [] []
  | .joinCmd g ch =>
    let r := s.manager.join g ch
    .ok { s with manager := r.client } (r.ws_out.map Event.sendWS) [] r.node_out

/-- One-step reachability between orchestrator states. -/
def StepRel (s s' : OrchState) : Prop :=
  ∃ env a emit gw node, stepA env s a = .ok s' emit gw node

/-- Reachability between orchestrator states. -/
def Reach : OrchState → OrchState → Prop := Relation.ReflTransGen StepRel

/-- Every live timer handle id is below the fresh-id counter. -/
def timersFresh (s : OrchState) : Prop :=
  ∀ tm ∈ s.live_timers, tm.id < s.next_timer

/-- A timer handle that was used up: no live timer carries it, and the
fresh-id counter is already past it. -/
def timerDead (s : OrchState) (id : Nat) : Prop :=
  id < s.next_timer ∧ ∀ tm ∈ s.live_timers, tm.id ≠ id

/-- At most one player per guild id. -/
def atMostOnePlayer (ps : List Player) : Prop :=
  ps.Pairwise (fun a b => a.guild_id ≠ b.guild_id)

/-- The orchestrator state or queued events of a step, when it succeeded. -/
def StepOutcome.okState : StepOutcome → Option OrchState
  | .ok s _ _ _ => some s
  | _ => none

/-- The node payloads a step sent to the audio node. -/
def StepOutcome.nodeOut : StepOutcome → List NodePayload
  | .ok _ _ _ node => node
  | _ => []

/-- The state the drain loop starts with: empty collections, a zeroed
resume token, both channel senders attached. -/
def initState : OrchState :=
  { user := ""
    voice_states := []
    manager := { hasTx := true, hasSender := true, voice_servers := []
                 voice_states := [], players := [] }
    resume_props := { resume_gateway_url := "", session_id := "", seq := 0, token := "token" }
    players_to_destroy := []
    live_timers := []
    next_timer := 0 }

/-- An environment whose reconnection attempts succeed. -/
def env0 : Env := ⟨true, true⟩

/-- An environment whose gateway reconnection attempts fail. -/
def envBad : Env := ⟨false, true⟩

/-- A connected Lavalink client with no state yet. -/
def clientTx : LavalinkClient :=
  { hasTx := true, hasSender := true, voice_servers := [], voice_states := [], players := [] }

/-- A fresh player for guild `g` in channel `c`. -/
def playerG : Player := Player.new "g" "c"

/-- The client `clientTx` with `playerG` registered. -/
def clientWithPlayer : LavalinkClient := { clientTx with players := [playerG] }

/-- A concrete track. -/
def trackA : Track := ⟨"encA", ⟨"idA", "authA", 100, 0, "titleA", "uriA"⟩⟩

/-- Another concrete track. -/
def trackB : Track := ⟨"encB", ⟨"idB", "authB", 120, 0, "titleB", "uriB"⟩⟩

/-- A playing player for guild `g` with queue `[A, B]`. -/
def playerAB : Player :=
  { guild_id := "g", channel_id := "c", paused := false, volume := 100,
    playing := true, queue := [trackA, trackB] }

/-- The client `clientTx` with `playerAB` registered. -/
def clientQueueAB : LavalinkClient := { clientTx with players := [playerAB] }

/-! ### C1: close-code classification -/

/-- C1 counterexample: a close message carrying no close frame at all makes
`on_close` return an error, so `handle_events` breaks without sending any
event — the session does not request Resume, contrary to the claim. -/
theorem c1_close_none_counterexample :
    on_close none = .err "Closed with no close code" ∧
    readerCloseSignal none ≠ some Event.resume ∧
    readerCloseSignal none = none := by
  refine ⟨rfl, by decide, rfl⟩

/-- C1 (amended): close codes 4000/4001/4002/4009 signal Resume;
4003/4005/4007/4008 signal Reconnect; 4004/4010/4011/4013/4014 surface the
close reason as an error and signal nothing; any other close code signals
Resume; but a close message with no close frame is treated as an error and
the reader terminates without signalling Resume. -/
theorem c1_close_classification (code : Nat) (reason : String) :
    (code ∈ [4000, 4001, 4002, 4009] →
      readerCloseSignal (some ⟨.library code, reason⟩) = some .resume) ∧
    (code ∈ [4003, 4005, 4007, 4008] →
      readerCloseSignal (some ⟨.library code, reason⟩) = some .reconnect) ∧
    (code ∈ [4004, 4010, 4011, 4013, 4014] →
      on_close (some ⟨.library code, reason⟩) = .err reason ∧
      readerCloseSignal (some ⟨.library code, reason⟩) = none) ∧
    (code ∉ [4000, 4001, 4002, 4003, 4004, 4005, 4007, 4008,
             4009, 4010, 4011, 4013, 4014] →
      readerCloseSignal (some ⟨.library code, reason⟩) = some .resume) ∧
    readerCloseSignal (some ⟨.standard code, reason⟩) = some .resume ∧
    readerCloseSignal none = none := by
  refine ⟨?_, ?_, ?_, ?_, rfl, rfl⟩
  · intro h; fin_cases h <;> rfl
  · intro h; fin_cases h <;> rfl
  · intro h; fin_cases h <;> exact ⟨rfl, rfl⟩
  · intro h
    simp only [List.mem_cons, List.not_mem_nil, or_false, not_or] at h
    obtain ⟨h0, h1, h2, h3, h4, h5, h7, h8, h9, h10, h11, h13, h14⟩ := h
    simp [readerCloseSignal, on_close, h0, h1, h2, h3, h4, h5, h7, h8, h9, h10, h11, h13, h14]

/-- C1 witness: the listed Resume code 4000 indeed signals Resume. -/
theorem c1_witness :
    readerCloseSignal (some ⟨.library 4000, "r"⟩) = some .resume :=
  (c1_close_classification 4000 "r").1 (by decide)

/-! ### C7: reader opcode handling -/

/-- C7 counterexample: an opcode-9 payload whose `d` is the boolean `false`
(or not a boolean at all) terminates the reader with `broke = true` and no
event is sent — no resume-or-reconnect signal is produced, contrary to the
claim. -/
theorem c7_op9_counterexample :
    readerTextStep ⟨none, some 9, some false, none, none, none⟩ = .brk [] ∧
    readerTextStep ⟨none, some 9, none, none, none, none⟩ = .brk [] := by
  exact ⟨rfl, rfl⟩

/-- C7 (amended): opcode 7 always terminates the reader signalling Resume;
opcode 9 terminates the reader, signalling Resume only when its boolean
payload is `true`; when `d` is not the boolean `true` the reader
terminates without producing any resume-or-reconnect signal (only the
sequence event, if any, precedes the break). -/
theorem c7_opcode_handling (msg : GatewayMsg) :
    (msg.op = some 7 → readerTextStep msg = .brk (seqEvents msg ++ [.resume])) ∧
    (msg.op = some 9 → msg.dBool = some true →
      readerTextStep msg = .brk (seqEvents msg ++ [.resume])) ∧
    (msg.op = some 9 → msg.dBool ≠ some true →
      readerTextStep msg = .brk (seqEvents msg)) ∧
    Event.resume ∉ seqEvents msg ∧ Event.reconnect ∉ seqEvents msg := by
  refine ⟨?_, ?_, ?_, ?_, ?_⟩
  · intro h; simp [readerTextStep, h]
  · intro h hd; simp [readerTextStep, h, hd]
  · intro h hd
    have hb : (msg.dBool == some true) = false := by
      simpa using hd
    simp [readerTextStep, h, hb]
  · cases h : msg.s <;> simp [seqEvents, h]
  · cases h : msg.s <;> simp [seqEvents, h]

/-- C7 witness: opcode 7 with a sequence number, opcode 9 with `d = true`,
and opcode 9 with `d = false`, at concrete payloads. -/
theorem c7_witness :
    readerTextStep ⟨some 1, some 7, none, none, none, none⟩ =
      .brk [.resumeSeq 1, .resume] ∧
    readerTextStep ⟨none, some 9, some true, none, none, none⟩ = .brk [.resume] ∧
    readerTextStep ⟨none, some 9, some false, none, none, none⟩ = .brk [] := by
  refine ⟨?_, ?_, ?_⟩
  · simpa [seqEvents] using
      (c7_opcode_handling ⟨some 1, some 7, none, none, none, none⟩).1 rfl
  · simpa [seqEvents] using
      (c7_opcode_handling ⟨none, some 9, some true, none, none, none⟩).2.1 rfl rfl
  · simpa [seqEvents] using
      (c7_opcode_handling ⟨none, some 9, some false, none, none, none⟩).2.2.1 rfl (by decide)

/-! ### C5: last_sequence tracking -/

/-- C5 counterexample: `Event::ResumeSeq` overwrites the stored sequence
unconditionally, so it can decrease (5 then 3), and `Event::Reconnect`
leaves the resume properties untouched (the sequence is not reset). -/
theorem c5_seq_counterexample :
    ∃ s1 s2, procEvent env0 initState (.resumeSeq 5) = .ok s1 [] [] [] ∧
      s1.resume_props.seq = 5 ∧
      procEvent env0 s1 (.resumeSeq 3) = .ok s2 [] [] [] ∧
      s2.resume_props.seq = 3 ∧
      procEvent env0 s1 .reconnect = .ok s1 [] [.identify] [] ∧
      s1.resume_props.seq ≠ 0 := by
  exact ⟨_, _, rfl, rfl, rfl, rfl, rfl, by decide⟩

/-- C5 (amended): `last_sequence` is simply assigned the value carried by
each ResumeSeq event (so it is non-decreasing only if the incoming values
are), and a full Reconnect does not discard the resume state: the
properties are left unchanged and are only overwritten by later
ResumeProps/ResumeSeq events. -/
theorem c5_seq_assignment (env : Env) (s : OrchState) (n : Nat) :
    (∃ s', procEvent env s (.resumeSeq n) = .ok s' [] [] [] ∧
      s'.resume_props.seq = n) ∧
    (env.gatewayOk = true →
      procEvent env s .reconnect = .ok s [] [.identify] []) := by
  constructor
  · exact ⟨_, rfl, rfl⟩
  · intro h; simp [procEvent, h]

/-- C5 witness: at the initial state, a reconnect leaves the state as is. -/
theorem c5_witness :
    procEvent env0 initState .reconnect = .ok initState [] [.identify] [] :=
  (c5_seq_assignment env0 initState 3).2 rfl

/-! ### C6: destroy(guild) -/

/-- C6 counterexample: destroying with no player fails with the NotFound
error but the gateway voice-state update (channel absent) has already been
enqueued — the claim's "no gateway payload is sent" is wrong. -/
theorem c6_destroy_counterexample :
    (clientTx.destroy_player "g").res = .error "Player not found" ∧
    (clientTx.destroy_player "g").ws_out = [⟨"g", none, false, false⟩] ∧
    (clientTx.destroy_player "g").ws_out ≠ [] := by
  refine ⟨rfl, rfl, by decide⟩

/-- C6 (amended): with no player, `destroy_player` fails with NotFound,
sends no node destroy payload and mutates nothing, but it does first send
the gateway voice-state update with channel absent (whenever the
orchestrator sender is attached); with a player it sends that gateway
payload, sends the node destroy payload, and removes exactly that guild's
players. -/
theorem c6_destroy_spec (c : LavalinkClient) (g : String) :
    (c.get_player g = none →
      c.destroy_player g =
        { res := .error "Player not found", client := c,
          ws_out := c.send_ws g none, node_out := [] }) ∧
    (∀ p, c.get_player g = some p →
      c.destroy_player g =
        { res := .ok,
          client := { c with players := c.players.filter (fun q => q.guild_id != g) },
          ws_out := c.send_ws g none, node_out := [.destroy g] }) := by
  constructor
  · intro h; simp [LavalinkClient.destroy_player, h]
  · intro p h; simp [LavalinkClient.destroy_player, h]

/-- C6 witness: destroying the registered player removes it and sends both
payloads. -/
theorem c6_witness :
    clientWithPlayer.destroy_player "g" =
      { res := .ok, client := clientTx,
        ws_out := [⟨"g", none, false, false⟩], node_out := [.destroy "g"] } := by
  have h := (c6_destroy_spec clientWithPlayer "g").2 playerG (by decide)
  exact h.trans (by decide)

/-! ### C10: the DestroyPlayer arm clears every pending idle destroy -/

/-- C10: processing a single `DestroyPlayer` event always succeeds and
leaves `players_to_destroy` empty — the shadowed closure parameter in
`retain(|(guild_id, _)| guild_id != guild_id)` compares each entry with
itself, removing every guild's entry, while the spawned timer tasks are
not aborted. -/
theorem c10_destroy_clears_all_pending (env : Env) (s : OrchState) (g : String) :
    ∃ s' emit node,
      procEvent env s (.destroyPlayer g) = .ok s' emit [] node ∧
      s'.players_to_destroy = [] ∧
      s'.live_timers = s.live_timers := by
  refine ⟨_, _, _, rfl, ?_, rfl⟩
  simp

/-! ### helper lemmas for the first-match update patterns -/

/-- Updating the first match preserves the position of the first match:
if `f` does not change whether the element matches, the first match of the
updated list is `f` of the old first match. -/
theorem find?_updateFirst (pred : α → Bool) (f : α → α) (ps : List α) (p : α)
    (h : ps.find? pred = some p) (hf : pred (f p) = true) :
    (updateFirst pred f ps).find? pred = some (f p) := by
  induction ps with
  | nil => simp at h
  | cons x xs ih =>
    by_cases hx : pred x
    · rw [List.find?_cons_of_pos xs hx] at h
      obtain rfl : x = p := by simpa using h
      simp [updateFirst, hx, List.find?_cons_of_pos _ hf]
    · rw [List.find?_cons_of_neg xs hx] at h
      simp only [updateFirst, hx, if_neg, Bool.false_eq_true, if_false]
      rw [List.find?_cons_of_neg _ hx]
      exact ih h

/-- After an upsert, the first match of the upsert predicate is the new
element. -/
theorem find?_upsertFirst (pred : α → Bool) (x : α) (l : List α)
    (hx : pred x = true) :
    (upsertFirst pred x l).find? pred = some x := by
  unfold upsertFirst
  by_cases h : l.any pred
  · simp only [h, if_true]
    obtain ⟨p, hp⟩ : ∃ p, l.find? pred = some p := by
      cases hf : l.find? pred with
      | none =>
        rw [List.find?_eq_none] at hf
        rw [List.any_eq_true] at h
        obtain ⟨a, ha, hpa⟩ := h
        exact absurd hpa (hf a ha)
      | some p => exact ⟨p, rfl⟩
    exact find?_updateFirst pred (fun _ => x) l p hp hx
  · simp only [h, Bool.false_eq_true, if_false]
    rw [List.find?_append]
    have : l.find? pred = none := by
      rw [List.find?_eq_none]
      intro a ha hpa
      exact h (List.any_eq_true.mpr ⟨a, ha, hpa⟩)
    simp [this, hx]

/-! ### C9: join(guild, channel) -/

/-- C9: joining a guild that already has a player fails with the
AlreadyConnected error, sends nothing and changes nothing; joining a guild
without one sends the op-4 voice-state update with the channel and
mute/deaf false, and appends exactly one fresh player (not playing, not
paused, empty queue), preserving at most one player per guild. -/
theorem c9_join_spec (c : LavalinkClient) (g ch : String) :
    ((∃ p ∈ c.players, p.guild_id = g) →
      c.join g ch = { res := .error ("Already in a voice channel in " ++ g),
                      client := c, ws_out := [], node_out := [] }) ∧
    ((∀ p ∈ c.players, p.guild_id ≠ g) → c.hasTx = true → c.hasSender = true →
      c.join g ch = { res := .ok,
                      client := { c with players := c.players ++ [Player.new g ch] },
                      ws_out := [⟨g, some ch, false, false⟩], node_out := [] } ∧
      (Player.new g ch).playing = false ∧ (Player.new g ch).paused = false ∧
      (Player.new g ch).queue = [] ∧
      (atMostOnePlayer c.players → atMostOnePlayer (c.players ++ [Player.new g ch]))) := by
  constructor
  · intro h
    have ha : c.players.any (fun p => p.guild_id == g) = true := by
      rw [List.any_eq_true]
      obtain ⟨p, hp, hg⟩ := h
      exact ⟨p, hp, by simpa using hg⟩
    simp [LavalinkClient.join, ha]
  · intro h htx hsd
    have ha : c.players.any (fun p => p.guild_id == g) = false := by
      rw [Bool.eq_false_iff]
      intro hc
      rw [List.any_eq_true] at hc
      obtain ⟨p, hp, hg⟩ := hc
      exact h p hp (by simpa using hg)
    refine ⟨by simp [LavalinkClient.join, ha, LavalinkClient.send_ws, htx, hsd],
      rfl, rfl, rfl, ?_⟩
    intro hone
    rw [atMostOnePlayer, List.pairwise_append]
    refine ⟨hone, by simp [atMostOnePlayer], ?_⟩
    intro p hp q hq
    simp only [List.mem_singleton] at hq
    subst hq
    exact h p hp

/-- C9 witness: joining on a clean client creates exactly the fresh
player. -/
theorem c9_witness :
    clientTx.join "g" "c" =
      { res := .ok, client := clientWithPlayer,
        ws_out := [⟨"g", some "c", false, false⟩], node_out := [] } := by
  have h := (c9_join_spec clientTx "g" "c").2
    (by intro p hp; simp [clientTx] at hp) rfl rfl
  exact h.1.trans (by decide)

/-! ### C8: on_track_end -/

/-- C8: on TrackEnd with a player whose queue is `t :: rest`, the head is
popped; if `rest` is non-empty exactly one play command for the new head
is issued and the playing flag is untouched (so it stays true); if `rest`
is empty no play command is issued and the player is marked not playing;
with no player the event is a no-op. -/
theorem c8_track_end_spec (c : LavalinkClient) (g : String) :
    (c.get_player g = none → c.on_track_end g = some (c, [])) ∧
    (∀ p t rest, c.get_player g = some p → p.queue = t :: rest →
      ∃ c', c.on_track_end g =
          some (c', match rest with | [] => [] | t2 :: _ => [.play g t2.track]) ∧
        ∃ p', c'.get_player g = some p' ∧ p'.queue = rest ∧
          p'.playing = (match rest with | [] => false | _ :: _ => p.playing) ∧
          p'.guild_id = p.guild_id ∧ p'.channel_id = p.channel_id ∧
          p'.paused = p.paused) := by
  constructor
  · intro h; simp [LavalinkClient.on_track_end, h]
  · intro p t rest hp hq
    have hp' : c.players.find? (fun q => q.guild_id == g) = some p := hp
    have hpg : (p.guild_id == g) = true := by simpa using List.find?_some hp'
    cases rest with
    | nil =>
      have hC : c.on_track_end g = some ({ c with players := updateFirst (fun q => q.guild_id == g) (fun _ => { p with queue := [], playing := false }) c.players }, []) := by
        simp [LavalinkClient.on_track_end, hp, hq]
      refine ⟨_, hC, ?_⟩
      refine ⟨{ p with queue := [], playing := false }, ?_, rfl, rfl, rfl, rfl, rfl⟩
      exact find?_updateFirst _ _ c.players p hp' hpg
    | cons t2 ts =>
      have hC : c.on_track_end g = some ({ c with players := updateFirst (fun q => q.guild_id == g) (fun _ => { p with queue := t2 :: ts }) c.players }, [.play g t2.track]) := by
        simp [LavalinkClient.on_track_end, hp, hq]
      refine ⟨_, hC, ?_⟩
      refine ⟨{ p with queue := t2 :: ts }, ?_, rfl, rfl, rfl, rfl, rfl⟩
      exact find?_updateFirst _ _ c.players p hp' hpg

/-- C8 witness: a player with queue `[A, B]` pops A, plays B, and stays
playing; evaluated on a concrete client. -/
theorem c8_witness :
    ((clientQueueAB.on_track_end "g").map Prod.snd = some [.play "g" "encB"]) ∧
    ((clientQueueAB.on_track_end "g").map
      (fun pr => (pr.1.get_player "g").map Player.queue)) = some (some [trackB]) ∧
    ((clientQueueAB.on_track_end "g").map
      (fun pr => (pr.1.get_player "g").map Player.playing)) = some (some true) := by
  obtain ⟨c', hc, p', hg, hq, hpl, -⟩ :=
    (c8_track_end_spec clientQueueAB "g").2 playerAB trackA [trackB] (by decide) rfl
  rw [hc]
  refine ⟨by simp [trackB], ?_, ?_⟩
  · simp [hg, hq]
  · simp [hg, hpl, playerAB]

/-! ### C2: voice-connect correlation -/

/-- Function `attempt_connection` succeeds exactly when server, bot voice state and
player are all present, and then yields the `voiceUpdate` payload. -/
theorem attempt_connection_ok (c : LavalinkClient) (g : String) (server : VoiceServer)
    (st : VoiceState) (p : Player)
    (hsv : c.voice_servers.find? (fun sv => sv.guild_id == g) = some server)
    (hst : c.voice_states.find? (fun x => x.guild_id == g) = some st)
    (hp : c.get_player g = some p) :
    c.attempt_connection g = .ok (.voiceUpdate p.guild_id st.session_id server) := by
  unfold LavalinkClient.attempt_connection
  rw [hsv, hst, hp]

/-- Function `attempt_connection` emits nothing when the bot voice state or the
player is missing. -/
theorem attempt_connection_not_ok (c : LavalinkClient) (g : String)
    (h : c.voice_states.find? (fun x => x.guild_id == g) = none ∨ c.get_player g = none) :
    ∀ q, c.attempt_connection g ≠ .ok q := by
  intro q hq
  unfold LavalinkClient.attempt_connection at hq
  cases hsv : c.voice_servers.find? (fun sv => sv.guild_id == g) with
  | none => rw [hsv] at hq; simp at hq
  | some sv =>
    rw [hsv] at hq
    rcases h with h | h
    · rw [h] at hq; simp at hq
    · cases hst : c.voice_states.find? (fun x => x.guild_id == g) with
      | none => rw [hst] at hq; simp at hq
      | some st => rw [hst, h] at hq; simp at hq

/-- The concrete voice server of guild `g`. -/
def serverG : VoiceServer := ⟨"tok", "g", "ep"⟩

/-- The bot's voice state in guild `g`, channel `c`. -/
def botStateG : VoiceState := ⟨some "c", "g", "B", "sess"⟩

/-- The state after the Ready event recorded user `B`. -/
def c2s1 : OrchState := { initState with user := "B" }

/-- After the join command created the player. -/
def c2s2 : OrchState := { c2s1 with manager := clientWithPlayer }

/-- After VoiceServerUpdate arrived (no bot voice state yet). -/
def c2s3 : OrchState :=
  { c2s1 with manager := { clientWithPlayer with voice_servers := [serverG] } }

/-- After the bot's VoiceStateUpdate arrived second. -/
def c2s4 : OrchState :=
  { c2s1 with
    voice_states := [botStateG]
    manager := { clientWithPlayer with voice_servers := [serverG], voice_states := [botStateG] } }

/-- C2 counterexample: a concrete run in which VoiceServerUpdate arrives
before the bot's VoiceStateUpdate.  After the second prerequisite event is
processed, VoiceServer, bot VoiceState and Player all exist for the
guild, yet neither step emitted any node payload — no `voiceUpdate`
instruction is produced, because the retry on VoiceStateUpdate is
commented out in the source. -/
theorem c2_order_counterexample :
    stepA env0 initState (.deliver (.ready "B" "u" "d")) = .ok c2s1 [] [] [] ∧
    stepA env0 c2s1 (.joinCmd "g" "c") =
      .ok c2s2 [.sendWS ⟨"g", some "c", false, false⟩] [] [] ∧
    stepA env0 c2s2 (.deliver (.voiceServerUpdate serverG)) = .ok c2s3 [] [] [] ∧
    stepA env0 c2s3 (.deliver (.voiceStateUpdate botStateG)) = .ok c2s4 [] [] [] ∧
    (c2s4.manager.voice_servers.find? (fun sv => sv.guild_id == "g")).isSome = true ∧
    (c2s4.manager.voice_states.find? (fun st => st.guild_id == "g")).isSome = true ∧
    (c2s4.manager.get_player "g").isSome = true := by
  refine ⟨by decide, by decide, by decide, by decide, by decide, by decide, by decide⟩

/-- C2 (amended): the `voiceUpdate` instruction is emitted exactly when a
VoiceServerUpdate event is processed while the bot-scoped VoiceState and
the Player already exist for the guild (the VoiceServer itself is
upserted by that very event); processing a VoiceStateUpdate never emits
it, so if the VoiceServerUpdate arrives first no instruction is emitted
until another VoiceServerUpdate arrives. -/
theorem c2_voice_connect_spec (env : Env) (s : OrchState) (server : VoiceServer)
    (vs : VoiceState) :
    (∀ st p,
      s.manager.voice_states.find? (fun x => x.guild_id == server.guild_id) = some st →
      s.manager.get_player server.guild_id = some p →
      ∃ s', procEvent env s (.voiceServerUpdate server) =
        .ok s' [] [] [.voiceUpdate p.guild_id st.session_id server]) ∧
    ((s.manager.voice_states.find? (fun x => x.guild_id == server.guild_id) = none ∨
      s.manager.get_player server.guild_id = none) →
      ∃ s', procEvent env s (.voiceServerUpdate server) = .ok s' [] [] []) ∧
    (vs.user_id = s.user →
      ∀ n ∈ (procEvent env s (.voiceStateUpdate vs)).nodeOut, n.isVoiceUpdate = false) := by
  refine ⟨?_, ?_, ?_⟩
  · intro st p hst hp
    have hsv := find?_upsertFirst (fun sv => sv.guild_id == server.guild_id) server
      s.manager.voice_servers (by simp)
    refine ⟨{ s with manager := { s.manager with voice_servers := upsertFirst (fun sv => sv.guild_id == server.guild_id) server s.manager.voice_servers } }, ?_⟩
    simp only [procEvent]
    rw [attempt_connection_ok _ server.guild_id server st p (by simpa using hsv)
      (by simpa using hst) (by simpa [LavalinkClient.get_player] using hp)]
  · intro h
    refine ⟨{ s with manager := { s.manager with voice_servers := upsertFirst (fun sv => sv.guild_id == server.guild_id) server s.manager.voice_servers } }, ?_⟩
    simp only [procEvent]
    have hnot := attempt_connection_not_ok
      ({ s.manager with voice_servers := upsertFirst (fun sv => sv.guild_id == server.guild_id) server s.manager.voice_servers }) server.guild_id (by simpa [LavalinkClient.get_player] using h)
    cases hac : ({ s.manager with voice_servers := upsertFirst (fun sv => sv.guild_id == server.guild_id) server s.manager.voice_servers } : LavalinkClient).attempt_connection server.guild_id with
    | ok q => exact absurd hac (hnot q)
    | error msg => rfl
  · intro hv n hn
    have hvb : (vs.user_id == s.user) = true := by simpa using hv
    simp only [procEvent, StepOutcome.nodeOut] at hn
    unfold botVoiceUpdate at hn
    rw [hvb] at hn
    simp only [if_true] at hn
    cases hch : vs.channel_id with
    | none =>
      rw [hch] at hn
      simp only [LavalinkClient.destroy_player] at hn
      cases hg : LavalinkClient.get_player { s.manager with voice_states := s.manager.voice_states.filter (fun st => st.guild_id != vs.guild_id) } vs.guild_id with
      | none => rw [hg] at hn; simp at hn
      | some p =>
        rw [hg] at hn
        simp only [List.mem_singleton] at hn
        subst hn
        rfl
    | some ch =>
      rw [hch] at hn
      simp at hn

/-- C2 witness: at the state where all three records exist, processing a
VoiceServerUpdate emits exactly the voiceUpdate instruction. -/
theorem c2_witness :
    (procEvent env0 c2s4 (.voiceServerUpdate serverG)).nodeOut =
      [.voiceUpdate "g" "sess" serverG] := by
  obtain ⟨s', hs⟩ := (c2_voice_connect_spec env0 c2s4 serverG botStateG).1 botStateG
    playerG (by decide) (by decide)
  rw [hs]
  simp [StepOutcome.nodeOut, playerG, Player.new, botStateG]

/-! ### C4: the drain loop and per-event failures -/

/-- A TrackEnd step comes to the panic only under a player with an empty
queue. -/
theorem on_track_end_eq_none (c : LavalinkClient) (g : String)
    (h : c.on_track_end g = none) :
    ∃ p, c.get_player g = some p ∧ p.queue = [] := by
  cases hp : c.get_player g with
  | none => simp [LavalinkClient.on_track_end, hp] at h
  | some p =>
    simp only [LavalinkClient.on_track_end, hp] at h
    cases hq : p.queue with
    | nil => exact ⟨p, rfl, hq⟩
    | cons t rest => rw [hq] at h; cases rest <;> simp at h

/-- C4 counterexample: from the initial state, a join command creates a
player with an empty queue (a reachable state); a TrackEnd event for that
guild then panics in `player.queue.remove(0)`, and a Resume event whose
re-connection attempt fails terminates the drain loop with an error —
both contrary to the claim that no event processing panics or terminates
the loop. -/
theorem c4_drain_loop_counterexample :
    stepA env0 c2s1 (.joinCmd "g" "c") =
      .ok c2s2 [.sendWS ⟨"g", some "c", false, false⟩] [] [] ∧
    procEvent env0 c2s2 (.trackEnd "g") =
      .panicked "removal index (is 0) should be < len (is 0)" ∧
    procEvent envBad c2s2 .resume =
      .terminated "Error resuming connection to the gateway" := by
  refine ⟨by decide, by decide, by decide⟩

/-- C4 (amended): processing an event panics only for a TrackEnd on an
existing player with an empty queue, and terminates the drain loop only
for Resume/Reconnect events whose gateway re-connection fails or a
LavalinkClosed event whose node re-connection fails; every other event is
processed with all failures caught. -/
theorem c4_step_failures (env : Env) (s : OrchState) (e : Event) :
    (∀ m, procEvent env s e = .panicked m →
      ∃ g p, e = .trackEnd g ∧ s.manager.get_player g = some p ∧ p.queue = []) ∧
    (∀ m, procEvent env s e = .terminated m →
      ((e = .resume ∨ e = .reconnect) ∧ env.gatewayOk = false) ∨
      (e = .lavalinkClosed ∧ env.lavalinkOk = false)) := by
  constructor
  · intro m h
    cases e with
    | trackEnd g =>
      simp only [procEvent] at h
      cases hg : s.manager.on_track_end g with
      | none =>
        obtain ⟨p, hp, hq⟩ := on_track_end_eq_none s.manager g hg
        exact ⟨g, p, rfl, hp, hq⟩
      | some pr => rw [hg] at h; simp at h
    | resume => simp only [procEvent] at h; split at h <;> simp at h
    | reconnect => simp only [procEvent] at h; split at h <;> simp at h
    | lavalinkClosed => simp only [procEvent] at h; split at h <;> simp at h
    | ready id u d => simp [procEvent] at h
    | voiceStateUpdate vs => simp [procEvent] at h
    | voiceServerUpdate server =>
      simp only [procEvent] at h
      split at h <;> simp at h
    | resumeSeq n => simp [procEvent] at h
    | resumeProps url sid => simp [procEvent] at h
    | sendWS p => simp [procEvent] at h
    | destroyPlayer g => simp [procEvent] at h
  · intro m h
    cases e with
    | resume =>
      simp only [procEvent] at h
      split at h
      · simp at h
      · next hg => exact Or.inl ⟨Or.inl rfl, by simpa using hg⟩
    | reconnect =>
      simp only [procEvent] at h
      split at h
      · simp at h
      · next hg => exact Or.inl ⟨Or.inr rfl, by simpa using hg⟩
    | lavalinkClosed =>
      simp only [procEvent] at h
      split at h
      · simp at h
      · next hg => exact Or.inr ⟨rfl, by simpa using hg⟩
    | trackEnd g =>
      simp only [procEvent] at h
      cases hg : s.manager.on_track_end g with
      | none => rw [hg] at h; simp at h
      | some pr => rw [hg] at h; simp at h
    | ready id u d => simp [procEvent] at h
    | voiceStateUpdate vs => simp [procEvent] at h
    | voiceServerUpdate server =>
      simp only [procEvent] at h
      split at h <;> simp at h
    | resumeSeq n => simp [procEvent] at h
    | resumeProps url sid => simp [procEvent] at h
    | sendWS p => simp [procEvent] at h
    | destroyPlayer g => simp [procEvent] at h

/-- C4 witness: the failure characterization applied to the failing Resume
event at the initial state. -/
theorem c4_witness :
    ((Event.resume = Event.resume ∨ Event.resume = Event.reconnect) ∧
      envBad.gatewayOk = false) ∨
    (Event.resume = Event.lavalinkClosed ∧ envBad.lavalinkOk = false) :=
  (c4_step_failures envBad initState .resume).2
    "Error resuming connection to the gateway" (by decide)

/-! ### C3: idle-timeout — helper lemmas -/

/-- Two boolean filters commute. -/
theorem filter_comm_bool (p q : α → Bool) (l : List α) :
    (l.filter p).filter q = (l.filter q).filter p := by
  induction l with
  | nil => rfl
  | cons x xs ih => by_cases hp : p x <;> by_cases hq : q x <;> simp [hp, hq, ih]

/-- A two-element list containing two distinct values is one of the two
orderings of them. -/
theorem eq_pair_of_length_two {l : List α} {a b : α} (hl : l.length = 2)
    (ha : a ∈ l) (hb : b ∈ l) (hab : a ≠ b) : l = [a, b] ∨ l = [b, a] := by
  cases l with
  | nil => simp at hl
  | cons x xs =>
    cases xs with
    | nil => simp at hl
    | cons y ys =>
      cases ys with
      | cons z zs => simp at hl
      | nil =>
        simp only [List.mem_cons, List.not_mem_nil, or_false] at ha hb
        rcases ha with rfl | rfl
        · rcases hb with rfl | rfl
          · exact absurd rfl hab
          · exact Or.inl rfl
        · rcases hb with rfl | rfl
          · exact Or.inr rfl
          · exact absurd rfl hab

/-- The idle heuristic never lowers the fresh-timer counter. -/
theorem idleStep_next_ge (user : String) (is : IdleState) (vs : VoiceState) :
    is.next_timer ≤ (idleStep user is vs).next_timer := by
  unfold idleStep
  cases hch : vs.channel_id with
  | none =>
    simp only
    repeat' split
    all_goals simp
  | some ch => exact Nat.le_refl _

/-- Any live timer after the idle heuristic was either already live or is
the freshly spawned one. -/
theorem idleStep_live_mem (user : String) (is : IdleState) (vs : VoiceState)
    (tm : Timer) (h : tm ∈ (idleStep user is vs).live_timers) :
    tm ∈ is.live_timers ∨ tm = ⟨is.next_timer, vs.guild_id, 300⟩ := by
  unfold idleStep at h
  cases hch : vs.channel_id with
  | none =>
    rw [hch] at h
    simp only at h
    repeat' split at h
    all_goals first
      | exact Or.inl h
      | (rcases List.mem_append.mp h with h1 | h1
         · exact Or.inl h1
         · simp only [List.mem_singleton] at h1
           exact Or.inr h1)
  | some ch =>
    rw [hch] at h
    simp only at h
    repeat' split at h
    all_goals first
      | exact Or.inl (List.mem_of_mem_filter h)
      | exact Or.inl h

/-- The idle heuristic in the scheduling case: the leaving user's record is
dropped and a fresh 300-second timer for the guild is pushed. -/
theorem idleStep_schedule (user : String) (is : IdleState) (vs : VoiceState) (pv : VoiceState)
    (hch : vs.channel_id = none)
    (hbot : (is.voice_states.find?
      (fun st => st.guild_id == vs.guild_id && st.user_id == user)).isSome = true)
    (hprev : is.voice_states.find?
      (fun st => st.guild_id == vs.guild_id && st.user_id == vs.user_id) = some pv)
    (hcnt : (is.voice_states.filter
      (fun st => st.guild_id == vs.guild_id && st.channel_id == pv.channel_id)).length = 2) :
    idleStep user is vs =
      ⟨is.voice_states.filter (fun st => st.user_id != vs.user_id || st.guild_id != vs.guild_id),
       is.players_to_destroy ++ [(vs.guild_id, is.next_timer)],
       is.live_timers ++ [⟨is.next_timer, vs.guild_id, 300⟩],
       is.next_timer + 1⟩ := by
  unfold idleStep
  rw [hch]
  simp only [hprev, hbot, hcnt]
  simp

/-- The idle heuristic in the cancellation case: the first pending destroy
of the guild is aborted and every pending entry of the guild removed. -/
theorem idleStep_cancel (user : String) (is : IdleState) (vs : VoiceState) (t : Nat)
    (ch : String) (hch : vs.channel_id = some ch)
    (hbotv : (is.voice_states.find?
      (fun st => st.guild_id == vs.guild_id && st.user_id == user)).isSome = true)
    (hcnt : (is.voice_states.filter
      (fun st => st.guild_id == vs.guild_id && st.channel_id == some ch)).length = 1)
    (hfind : is.players_to_destroy.find? (fun pr => pr.1 == vs.guild_id) =
      some (vs.guild_id, t)) :
    (idleStep user is vs).players_to_destroy =
        is.players_to_destroy.filter (fun q => q.1 != vs.guild_id) ∧
      (idleStep user is vs).live_timers =
        is.live_timers.filter (fun tm => tm.id != t) ∧
      (idleStep user is vs).next_timer = is.next_timer := by
  unfold idleStep
  rw [hch]
  simp only [hbotv, hcnt, hfind]
  simp

/-- A dead timer handle cannot fire: the fire action finds no live timer
and emits nothing. -/
theorem timerDead_fire {s : OrchState} {id : Nat} (hd : timerDead s id) :
    fireStep s id = (s, []) := by
  obtain ⟨-, hmem⟩ := hd
  unfold fireStep
  have hnone : s.live_timers.find? (fun tm => tm.id == id) = none := by
    rw [List.find?_eq_none]
    intro tm htm
    simpa using hmem tm htm
  rw [hnone]

/-- One orchestrator step keeps a dead timer handle dead: live timers only
gain the fresh id (which is past any dead one) and the counter never
decreases. -/
theorem stepRel_timerDead {s s' : OrchState} {id : Nat}
    (h : StepRel s s') (hd : timerDead s id) : timerDead s' id := by
  obtain ⟨env, a, emit, gw, node, hstep⟩ := h
  obtain ⟨hlt, hmem⟩ := hd
  cases a with
  | joinCmd g ch =>
    simp only [stepA, StepOutcome.ok.injEq] at hstep
    obtain ⟨rfl, -, -, -⟩ := hstep
    exact ⟨hlt, hmem⟩
  | fire fid =>
    simp only [stepA, StepOutcome.ok.injEq] at hstep
    obtain ⟨rfl, -, -, -⟩ := hstep
    unfold fireStep
    cases hf : s.live_timers.find? (fun tm => tm.id == fid) with
    | none => exact ⟨hlt, hmem⟩
    | some tm =>
      refine ⟨hlt, ?_⟩
      intro tm2 htm2
      exact hmem tm2 (List.mem_of_mem_filter htm2)
  | deliver e =>
    cases e with
    | ready uid u d =>
      simp only [stepA, procEvent, StepOutcome.ok.injEq] at hstep
      obtain ⟨rfl, -, -, -⟩ := hstep
      exact ⟨hlt, hmem⟩
    | resume =>
      simp only [stepA, procEvent] at hstep
      split at hstep
      · simp only [StepOutcome.ok.injEq] at hstep
        obtain ⟨rfl, -, -, -⟩ := hstep
        exact ⟨hlt, hmem⟩
      · simp at hstep
    | reconnect =>
      simp only [stepA, procEvent] at hstep
      split at hstep
      · simp only [StepOutcome.ok.injEq] at hstep
        obtain ⟨rfl, -, -, -⟩ := hstep
        exact ⟨hlt, hmem⟩
      · simp at hstep
    | lavalinkClosed =>
      simp only [stepA, procEvent] at hstep
      split at hstep
      · simp only [StepOutcome.ok.injEq] at hstep
        obtain ⟨rfl, -, -, -⟩ := hstep
        exact ⟨hlt, hmem⟩
      · simp at hstep
    | resumeSeq n =>
      simp only [stepA, procEvent, StepOutcome.ok.injEq] at hstep
      obtain ⟨rfl, -, -, -⟩ := hstep
      exact ⟨hlt, hmem⟩
    | resumeProps url sid =>
      simp only [stepA, procEvent, StepOutcome.ok.injEq] at hstep
      obtain ⟨rfl, -, -, -⟩ := hstep
      exact ⟨hlt, hmem⟩
    | sendWS p =>
      simp only [stepA, procEvent, StepOutcome.ok.injEq] at hstep
      obtain ⟨rfl, -, -, -⟩ := hstep
      exact ⟨hlt, hmem⟩
    | voiceServerUpdate server =>
      simp only [stepA, procEvent] at hstep
      split at hstep <;>
        (simp only [StepOutcome.ok.injEq] at hstep
         obtain ⟨rfl, -, -, -⟩ := hstep
         exact ⟨hlt, hmem⟩)
    | trackEnd g =>
      simp only [stepA, procEvent] at hstep
      cases hg : s.manager.on_track_end g with
      | none => rw [hg] at hstep; simp at hstep
      | some pr =>
        rw [hg] at hstep
        simp only [StepOutcome.ok.injEq] at hstep
        obtain ⟨rfl, -, -, -⟩ := hstep
        exact ⟨hlt, hmem⟩
    | destroyPlayer g =>
      simp only [stepA, procEvent, StepOutcome.ok.injEq] at hstep
      obtain ⟨rfl, -, -, -⟩ := hstep
      exact ⟨hlt, hmem⟩
    | voiceStateUpdate vs =>
      simp only [stepA, procEvent, StepOutcome.ok.injEq] at hstep
      obtain ⟨rfl, -, -, -⟩ := hstep
      constructor
      · exact Nat.lt_of_lt_of_le hlt (idleStep_next_ge s.user
          ⟨s.voice_states, s.players_to_destroy, s.live_timers, s.next_timer⟩ vs)
      · intro tm htm
        rcases idleStep_live_mem s.user
          ⟨s.voice_states, s.players_to_destroy, s.live_timers, s.next_timer⟩ vs tm htm
          with h1 | h1
        · exact hmem tm h1
        · subst h1
          show s.next_timer ≠ id
          omega

/-- Dead timer handles stay dead along any reachable execution. -/
theorem reach_timerDead {s s' : OrchState} {id : Nat}
    (h : Reach s s') (hd : timerDead s id) : timerDead s' id := by
  induction h with
  | refl => exact hd
  | tail _ hstep ih => exact stepRel_timerDead hstep ih

/-- C3: starting from a state where guild `g`'s channel `c` holds exactly
the bot and one other user `u` (two all-users records reference `c`),
processing `u`'s leave schedules a deferred destroy for `g` with the
fixed 300-second delay; processing any user's rejoin into the now
bot-only channel aborts the timer, whose fire can then never happen along
any execution; and without a rejoin the timer fires exactly once,
emitting one DestroyPlayer event and never firing again. -/
theorem c3_idle_timeout (env : Env) (s : OrchState) (g c u sid : String) (bs pv : VoiceState)
    (hu : u ≠ s.user)
    (hbot : s.voice_states.find? (fun st => st.guild_id == g && st.user_id == s.user) = some bs)
    (hbsc : bs.channel_id = some c)
    (hprev : s.voice_states.find? (fun st => st.guild_id == g && st.user_id == u) = some pv)
    (hpvc : pv.channel_id = some c)
    (hcount : (s.voice_states.filter
      (fun st => st.guild_id == g && st.channel_id == some c)).length = 2)
    (hnog : ∀ pr ∈ s.players_to_destroy, pr.1 ≠ g)
    (hfresh : timersFresh s) :
    ∃ s₁ emit node,
      procEvent env s (.voiceStateUpdate ⟨none, g, u, sid⟩) = .ok s₁ emit [] node ∧
      s₁.players_to_destroy = s.players_to_destroy ++ [(g, s.next_timer)] ∧
      s₁.live_timers = s.live_timers ++ [⟨s.next_timer, g, 300⟩] ∧
      s₁.next_timer = s.next_timer + 1 ∧
      (∀ v sid₂, ∃ s₂ emit₂ node₂,
        procEvent env s₁ (.voiceStateUpdate ⟨some c, g, v, sid₂⟩) = .ok s₂ emit₂ [] node₂ ∧
        (∀ tm ∈ s₂.live_timers, tm.id ≠ s.next_timer) ∧
        (∀ pr ∈ s₂.players_to_destroy, pr.1 ≠ g) ∧
        (∀ s₃, Reach s₂ s₃ → fireStep s₃ s.next_timer = (s₃, []))) ∧
      (∃ sF, fireStep s₁ s.next_timer = (sF, [.destroyPlayer g]) ∧
        ∀ s₃, Reach sF s₃ → fireStep s₃ s.next_timer = (s₃, [])) := by
  -- facts about the two records at channel c
  have hbs_mem : bs ∈ s.voice_states := List.mem_of_find?_eq_some hbot
  have hpv_mem : pv ∈ s.voice_states := List.mem_of_find?_eq_some hprev
  have hbsp := List.find?_some hbot
  have hpvp := List.find?_some hprev
  simp only [Bool.and_eq_true, beq_iff_eq] at hbsp hpvp
  obtain ⟨hbsg, hbsu⟩ := hbsp
  obtain ⟨hpvg, hpvu⟩ := hpvp
  have hbu : (u == s.user) = false := by simp [hu]
  have hbspv : bs ≠ pv := by
    intro hEq
    exact hu (by rw [← hpvu, ← hEq, hbsu])
  have hKbs : (bs.user_id != u || bs.guild_id != g) = true := by
    simp only [Bool.or_eq_true, bne_iff_ne]
    exact Or.inl (by rw [hbsu]; exact Ne.symm hu)
  have hKpv : (pv.user_id != u || pv.guild_id != g) = false := by
    simp [hpvu, hpvg]
  have hQbs : (bs.guild_id == g && bs.channel_id == some c) = true := by
    simp [hbsg, hbsc]
  have hQpv : (pv.guild_id == g && pv.channel_id == some c) = true := by
    simp [hpvg, hpvc]
  have hpair := eq_pair_of_length_two hcount
    (List.mem_filter.mpr ⟨hbs_mem, hQbs⟩) (List.mem_filter.mpr ⟨hpv_mem, hQpv⟩) hbspv
  -- the leave step schedules the timer
  have hbotS : (s.voice_states.find?
      (fun st => st.guild_id == g && st.user_id == s.user)).isSome = true := by
    rw [hbot]; rfl
  have hcnt2 : (s.voice_states.filter
      (fun st => st.guild_id == g && st.channel_id == pv.channel_id)).length = 2 := by
    simp only [hpvc]; exact hcount
  have hbp1 : botVoiceUpdate s.user s.manager ⟨none, g, u, sid⟩ = (s.manager, [], []) := by
    unfold botVoiceUpdate
    simp [hbu]
  have hsch := idleStep_schedule s.user
    ⟨s.voice_states, s.players_to_destroy, s.live_timers, s.next_timer⟩
    ⟨none, g, u, sid⟩ pv rfl hbotS hprev hcnt2
  refine ⟨{ s with voice_states := s.voice_states.filter (fun st => st.user_id != u || st.guild_id != g), players_to_destroy := s.players_to_destroy ++ [(g, s.next_timer)], live_timers := s.live_timers ++ [⟨s.next_timer, g, 300⟩], next_timer := s.next_timer + 1 }, [], [], ?_, rfl, rfl, rfl, ?_, ?_⟩
  · simp only [procEvent, hbp1, hsch]
  · -- the rejoin cancels the pending destroy, which can then never fire
    intro v sid₂
    have hbotv : ((s.voice_states.filter (fun st => st.user_id != u || st.guild_id != g)).find?
        (fun st => st.guild_id == g && st.user_id == s.user)).isSome = true := by
      refine List.find?_isSome.mpr ⟨bs, List.mem_filter.mpr ⟨hbs_mem, hKbs⟩, ?_⟩
      simp [hbsg, hbsu]
    have hcnt1 : ((s.voice_states.filter (fun st => st.user_id != u || st.guild_id != g)).filter
        (fun st => st.guild_id == g && st.channel_id == some c)).length = 1 := by
      rw [filter_comm_bool]
      rcases hpair with hp | hp <;> rw [hp] <;> simp [hKbs, hKpv]
    have hfind1 : ((s.players_to_destroy ++ [(g, s.next_timer)]).find?
        (fun pr => pr.1 == g)) = some (g, s.next_timer) := by
      have h1 : s.players_to_destroy.find? (fun pr => pr.1 == g) = none :=
        List.find?_eq_none.mpr (fun pr hpr => by simpa using hnog pr hpr)
      rw [List.find?_append, h1]
      simp
    obtain ⟨hpend₂, hlive₂, hnext₂⟩ := idleStep_cancel s.user
      ⟨s.voice_states.filter (fun st => st.user_id != u || st.guild_id != g), s.players_to_destroy ++ [(g, s.next_timer)], s.live_timers ++ [⟨s.next_timer, g, 300⟩], s.next_timer + 1⟩
      ⟨some c, g, v, sid₂⟩ s.next_timer c rfl hbotv hcnt1 hfind1
    refine ⟨_, _, _, rfl, ?_, ?_, ?_⟩
    · intro tm htm
      rw [hlive₂] at htm
      simpa using (List.of_mem_filter htm)
    · intro pr hpr
      rw [hpend₂] at hpr
      simpa using (List.of_mem_filter hpr)
    · intro s₃ hr
      refine timerDead_fire (reach_timerDead hr ?_)
      constructor
      · rw [hnext₂]
        exact Nat.lt_succ_self _
      · intro tm htm
        rw [hlive₂] at htm
        simpa using (List.of_mem_filter htm)
  · -- without a rejoin the timer fires exactly once
    have hfl : ((s.live_timers ++ [(⟨s.next_timer, g, 300⟩ : Timer)]).find?
        (fun tm => tm.id == s.next_timer)) = some (⟨s.next_timer, g, 300⟩ : Timer) := by
      have h1 : s.live_timers.find? (fun tm => tm.id == s.next_timer) = none :=
        List.find?_eq_none.mpr (fun tm htm => by
          simpa using Nat.ne_of_lt (hfresh tm htm))
      rw [List.find?_append, h1]
      simp
    refine ⟨{ user := s.user, voice_states := s.voice_states.filter (fun st => st.user_id != u || st.guild_id != g), manager := s.manager, resume_props := s.resume_props, players_to_destroy := s.players_to_destroy ++ [(g, s.next_timer)], live_timers := (s.live_timers ++ [(⟨s.next_timer, g, 300⟩ : Timer)]).filter (fun t2 => t2.id != s.next_timer), next_timer := s.next_timer + 1 }, ?_, ?_⟩
    · simp only [fireStep]
      rw [hfl]
    · intro s₃ hr
      refine timerDead_fire (reach_timerDead hr ?_)
      constructor
      · exact Nat.lt_succ_self _
      · intro tm htm
        simpa using (List.of_mem_filter htm)

/-- The bot's all-users record in guild `g`, channel `c`. -/
def bsW : VoiceState := ⟨some "c", "g", "B", "sb"⟩

/-- The other user's record in guild `g`, channel `c`. -/
def pvW : VoiceState := ⟨some "c", "g", "U", "su"⟩

/-- A state in which channel `c` of guild `g` holds exactly the bot and
user `U`. -/
def c3s : OrchState := { initState with user := "B", voice_states := [bsW, pvW] }

/-- C3 witness: in the concrete two-occupant state, processing user `U`
leaving schedules exactly the pending destroy `("g", 0)` with a live
300-second timer. -/
theorem c3_witness :
    ((procEvent env0 c3s (.voiceStateUpdate ⟨none, "g", "U", "su2"⟩)).okState.map
      OrchState.players_to_destroy) = some [("g", 0)] ∧
    ((procEvent env0 c3s (.voiceStateUpdate ⟨none, "g", "U", "su2"⟩)).okState.map
      OrchState.live_timers) = some [⟨0, "g", 300⟩] := by
  obtain ⟨s₁, emit, node, h1, h2, h3, h4, -, -⟩ :=
    c3_idle_timeout env0 c3s "g" "c" "U" "su2" bsW pvW (by decide) (by decide) (by decide)
      (by decide) (by decide) (by decide) (by simp [c3s, initState])
      (by intro tm htm; simp [c3s, initState] at htm)
  rw [h1]
  constructor
  · simp [StepOutcome.okState, h2, c3s, initState]
  · simp [StepOutcome.okState, h3, c3s, initState]

end Franta
